import Mathlib

/-!
Shallow embedding of the escrow-sale contract
(`smart_contracts/escrow_sale/escrow_sale.py`): a goal-based, time-boxed
token sale with full escrow.  Global state holds the sale configuration;
per-contributor records live in boxes keyed by the contributor address.
Amounts and addresses are modelled as `Nat`; 64-bit arithmetic overflow
(which aborts the AVM transaction) is modelled as an explicit failure.
-/

namespace EscrowSale

/-- `RATE_SCALE = Int(1_000_000)` in the source. -/
def RATE_SCALE : Nat := 1000000

/-- `DURATION_SECONDS = Int(60 * 24 * 60 * 60)` (60 days) in the source. -/
def DURATION_SECONDS : Nat := 60 * 24 * 60 * 60

/-- Bound of a 64-bit unsigned machine word; the AVM aborts when an
arithmetic result does not fit. -/
def U64 : Nat := 2 ^ 64

/-- A per-contributor box value: `pledged_microalgo(8) || tokens_owed(8)`. -/
structure Record where
  pledged : Nat
  owed : Nat
deriving DecidableEq, Repr

/-- The global state keys of the application:
`creator, asa_id, rate, goal, total, start_ts, deadline, status`
with `status`: 0 = open, 1 = success, 2 = expired. -/
structure GlobalState where
  creator : Nat
  asaId : Nat
  rate : Nat
  goal : Nat
  total : Nat
  startTs : Nat
  deadline : Nat
  status : Nat
deriving DecidableEq, Repr

/-- Whole application state: the global keys plus the box store
(`boxes a = none` models an absent box for address `a`). -/
structure SaleState where
  glob : GlobalState
  boxes : Nat → Option Record

/-- The payment transaction expected at group index 0 of a `contribute`
group.  `typeEnum = 1` is `TxnType.Payment`; address 0 plays the role of
the zero address. -/
structure PayTxn where
  sender : Nat
  receiver : Nat
  amount : Nat
  typeEnum : Nat
  rekeyTo : Nat
  closeRemainderTo : Nat
deriving DecidableEq, Repr

/-- Shape of the transaction group carrying a `contribute` call:
group size, the app call's own group index, and the transaction at
group index 0. -/
structure Group where
  size : Nat
  appCallIndex : Nat
  pay : PayTxn
deriving DecidableEq, Repr

/-- Failure reasons; in the TEAL source every one is an `Assert` (or an
arithmetic panic) that aborts the call, the names follow the spec's
error taxonomy. -/
inductive Err where
  | InvalidState
  | DeadlinePassed
  | DeadlineNotReached
  | BadGroup
  | DustRejected
  | Overflow
  | RecordNotFound
  | AlreadySettled
  | TransferFailed
  | PermissionDenied
deriving DecidableEq, Repr

/-- Kind of an inner transaction issued by the contract. -/
inductive TransferKind where
  | pay
  | axfer
deriving DecidableEq, Repr

/-- An inner transaction issued by the contract (`asset := 0` for plain
payments). -/
structure Transfer where
  kind : TransferKind
  asset : Nat
  receiver : Nat
  amount : Nat
deriving DecidableEq, Repr

/-- `BoxPut(box_key addr, value)`: store a record under an address. -/
def boxPut (s : SaleState) (a : Nat) (r : Record) : SaleState :=
  { s with boxes := fun x => if x = a then some r else s.boxes x }

/-- The pledged amount recorded for address `a` (0 when the box is
absent), mirroring `pledged.store(Int(0))` before the `BoxGet`. -/
def boxPledged (s : SaleState) (a : Nat) : Nat :=
  match s.boxes a with
  | some r => r.pledged
  | none => 0

/-- The owed token amount recorded for address `a` (0 when the box is
absent). -/
def boxOwed (s : SaleState) (a : Nat) : Nat :=
  match s.boxes a with
  | some r => r.owed
  | none => 0

/-- `create_app(asa_id, rate, goal)`: initialize the sale. -/
def create_app (sender asaId rate goal now : Nat) : SaleState :=
  { glob :=
      { creator := sender
        asaId := asaId
        rate := rate
        goal := goal
        total := 0
        startTs := now
        deadline := now + DURATION_SECONDS
        status := 0 }
    boxes := fun _ => none }

/-- `opt_in_asset()`: creator-only; issues a 0-amount asset transfer to
the application address and leaves the state unchanged. -/
def opt_in_asset (appAddr sender : Nat) (s : SaleState) :
    Except Err (SaleState × Transfer) :=
  if sender = s.glob.creator then
    .ok (s, ⟨.axfer, s.glob.asaId, appAddr, 0⟩)
  else .error .PermissionDenied

/-- `set_rate(new_rate_tokens_per_algo)`: creator-only, only while the
sale is open; replaces the stored rate. -/
def set_rate (sender newRate : Nat) (s : SaleState) : Except Err SaleState :=
  if sender = s.glob.creator then
    if s.glob.status = 0 then
      .ok { s with glob := { s.glob with rate := newRate } }
    else .error .InvalidState
  else .error .PermissionDenied

/-- `withdraw_algo(amount)`: creator-only, requires SUCCESS; pays the
creator, no ledger-state mutation. -/
def withdraw_algo (sender amount : Nat) (s : SaleState) :
    Except Err (SaleState × Transfer) :=
  if sender = s.glob.creator then
    if s.glob.status = 1 then
      .ok (s, ⟨.pay, 0, sender, amount⟩)
    else .error .InvalidState
  else .error .PermissionDenied

/-- `reclaim_asset(amount, to)`: creator-only, requires EXPIRED or
SUCCESS; sends tokens to `dest`, no ledger-state mutation. -/
def reclaim_asset (sender amount dest : Nat) (s : SaleState) :
    Except Err (SaleState × Transfer) :=
  if sender = s.glob.creator then
    if s.glob.status = 2 ∨ s.glob.status = 1 then
      .ok (s, ⟨.axfer, s.glob.asaId, dest, amount⟩)
    else .error .InvalidState
  else .error .PermissionDenied

/-- `contribute()`: expected group `[0] Payment -> app, [1] this AppCall`.
Guards in source order, then
`tokens := WideRatio([amount, rate], [RATE_SCALE])` (128-bit
intermediate, so computed exactly on `Nat` with an explicit bound check
on the 64-bit quotient), dust check, record accumulation keyed by
`Gtxn[0].sender()`, and the aggregate-total update.  `caller` is the app
call's own sender (`Txn.sender()`), which `contribute` never uses. -/
def contribute (appAddr caller now : Nat) (g : Group) (s : SaleState) :
    Except Err SaleState :=
  if s.glob.status = 0 then
    if now < s.glob.deadline then
      if g.size = 2 then
        if g.appCallIndex = 1 then
          if g.pay.typeEnum = 1 then
            if g.pay.receiver = appAddr then
              if 0 < g.pay.amount then
                if g.pay.rekeyTo = 0 then
                  if g.pay.closeRemainderTo = 0 then
                    if g.pay.amount * s.glob.rate / RATE_SCALE < U64 then
                      if 0 < g.pay.amount * s.glob.rate / RATE_SCALE then
                        if boxPledged s g.pay.sender + g.pay.amount < U64 then
                          if boxOwed s g.pay.sender +
                              g.pay.amount * s.glob.rate / RATE_SCALE < U64 then
                            if s.glob.total + g.pay.amount < U64 then
                              .ok { boxPut s g.pay.sender
                                      ⟨boxPledged s g.pay.sender + g.pay.amount,
                                       boxOwed s g.pay.sender +
                                         g.pay.amount * s.glob.rate / RATE_SCALE⟩ with
                                    glob := { s.glob with
                                      total := s.glob.total + g.pay.amount } }
                            else .error .Overflow
                          else .error .Overflow
                        else .error .Overflow
                      else .error .DustRejected
                    else .error .Overflow
                  else .error .BadGroup
                else .error .BadGroup
              else .error .BadGroup
            else .error .BadGroup
          else .error .BadGroup
        else .error .BadGroup
      else .error .BadGroup
    else .error .DeadlinePassed
  else .error .InvalidState

/-- `finalize()`: requires OPEN; `total >= goal` latches SUCCESS,
otherwise requires `now >= deadline` and latches EXPIRED. -/
def finalize (now : Nat) (s : SaleState) : Except Err SaleState :=
  if s.glob.status = 0 then
    if s.glob.goal ≤ s.glob.total then
      .ok { s with glob := { s.glob with status := 1 } }
    else
      if s.glob.deadline ≤ now then
        .ok { s with glob := { s.glob with status := 2 } }
      else .error .DeadlineNotReached
  else .error .InvalidState

/-- `claim()`: after SUCCESS the contributor identified by the app
call's sender receives their owed tokens via an inner asset transfer,
then the box is overwritten with two zero fields.  `transferOk` models
whether the environment accepts the inner transfer: when it does not,
the whole call aborts and no state changes. -/
def claim (sender : Nat) (transferOk : Bool) (s : SaleState) :
    Except Err (SaleState × Transfer × Nat) :=
  if s.glob.status = 1 then
    match s.boxes sender with
    | none => .error .RecordNotFound
    | some r =>
      if 0 < r.owed then
        if transferOk then
          .ok (boxPut s sender ⟨0, 0⟩, ⟨.axfer, s.glob.asaId, sender, r.owed⟩, r.owed)
        else .error .TransferFailed
      else .error .AlreadySettled
  else .error .InvalidState

/-- `refund()`: after EXPIRED the contributor identified by the app
call's sender gets the pledged microalgos back via an inner payment,
then the box is overwritten with two zero fields. -/
def refund (sender : Nat) (transferOk : Bool) (s : SaleState) :
    Except Err (SaleState × Transfer × Nat) :=
  if s.glob.status = 2 then
    match s.boxes sender with
    | none => .error .RecordNotFound
    | some r =>
      if 0 < r.pledged then
        if transferOk then
          .ok (boxPut s sender ⟨0, 0⟩, ⟨.pay, 0, sender, r.pledged⟩, r.pledged)
        else .error .TransferFailed
      else .error .AlreadySettled
  else .error .InvalidState

/-- One post-creation call to the application (arguments of the
underlying method plus its environment: caller, time, group shape,
acceptance of the inner transfer). -/
inductive Op where
  | contrib (caller now : Nat) (g : Group)
  | fin (now : Nat)
  | doClaim (caller : Nat) (tOk : Bool)
  | doRefund (caller : Nat) (tOk : Bool)
  | setRate (caller rate : Nat)
  | optIn (caller : Nat)
  | withdraw (caller amount : Nat)
  | reclaim (caller amount dest : Nat)

/-- Effect of one call on the ledger state: a rejected call (any
`Assert` failure or arithmetic panic) leaves the state untouched. -/
def stepOp (appAddr : Nat) (s : SaleState) (op : Op) : SaleState :=
  match op with
  | .contrib caller now g =>
    match contribute appAddr caller now g s with
    | .ok s2 => s2
    | .error _ => s
  | .fin now =>
    match finalize now s with
    | .ok s2 => s2
    | .error _ => s
  | .doClaim c t =>
    match claim c t s with
    | .ok (s2, _, _) => s2
    | .error _ => s
  | .doRefund c t =>
    match refund c t s with
    | .ok (s2, _, _) => s2
    | .error _ => s
  | .setRate c r =>
    match set_rate c r s with
    | .ok s2 => s2
    | .error _ => s
  | .optIn c =>
    match opt_in_asset appAddr c s with
    | .ok (s2, _) => s2
    | .error _ => s
  | .withdraw c a =>
    match withdraw_algo c a s with
    | .ok (s2, _) => s2
    | .error _ => s
  | .reclaim c a d =>
    match reclaim_asset c a d s with
    | .ok (s2, _) => s2
    | .error _ => s

/-- Run a sequence of calls. -/
def runOps (appAddr : Nat) (s : SaleState) (ops : List Op) : SaleState :=
  match ops with
  | [] => s
  | op :: rest => runOps appAddr (stepOp appAddr s op) rest

/-- The accepted-contribution event of a single call (empty when the
call is not an accepted `contribute`): payment sender, payment amount,
and the rate in effect at that moment. -/
def logHead (appAddr : Nat) (s : SaleState) (op : Op) : List (Nat × Nat × Nat) :=
  match op with
  | .contrib caller now g =>
    match contribute appAddr caller now g s with
    | .ok _ => [(g.pay.sender, g.pay.amount, s.glob.rate)]
    | .error _ => []
  | _ => []

/-- All accepted contributions of a run, each with the rate in effect
when it was accepted. -/
def acceptedLog (appAddr : Nat) (s : SaleState) (ops : List Op) :
    List (Nat × Nat × Nat) :=
  match ops with
  | [] => []
  | op :: rest => logHead appAddr s op ++ acceptedLog appAddr (stepOp appAddr s op) rest

/-- Sum of the payment amounts of a contribution log. -/
def sumAmts (l : List (Nat × Nat × Nat)) : Nat :=
  (l.map fun e => e.2.1).sum

/-- Sum of the per-contribution token entitlements
`floor(amount * rate / RATE_SCALE)` of a contribution log. -/
def sumTok (l : List (Nat × Nat × Nat)) : Nat :=
  (l.map fun e => e.2.1 * e.2.2 / RATE_SCALE).sum

/-- The contributions of a log whose payment sender is `c`. -/
def forSender (c : Nat) (l : List (Nat × Nat × Nat)) : List (Nat × Nat × Nat) :=
  l.filter fun e => e.1 = c


/-- Test fixture: a well-formed contribution group. -/
def wGroup (sender appAddr amt : Nat) : Group :=
  { size := 2, appCallIndex := 1,
    pay := { sender := sender, receiver := appAddr, amount := amt, typeEnum := 1,
             rekeyTo := 0, closeRemainderTo := 0 } }

/-- Test fixture: a fresh sale by creator 1, asset 7, rate 100,
goal 5000000, created at time 1000. -/
def wState : SaleState := create_app 1 7 100 5000000 1000

/-- Test fixture: like `wState` but with goal 10000000. -/
def wSale10 : SaleState := create_app 1 7 100 10000000 1000

/-- Test fixture: a contribution group whose payment sets `rekey_to`. -/
def wBadGroup : Group :=
  { size := 2, appCallIndex := 1,
    pay := { sender := 2, receiver := 100, amount := 3000000, typeEnum := 1,
             rekeyTo := 5, closeRemainderTo := 0 } }

/-- Test fixture: two contributions by address 2 with a rate change in
between. -/
def wOpsC1 : List Op :=
  [.contrib 2 2000 (wGroup 2 100 3000000), .setRate 1 200,
   .contrib 2 3000 (wGroup 2 100 2000000)]

/-- Test fixture: a run reaching the goal exactly and finalizing to
SUCCESS. -/
def wReached : SaleState :=
  runOps 100 wState
    [.contrib 2 2000 (wGroup 2 100 3000000), .contrib 2 2100 (wGroup 2 100 2000000),
     .fin 2500]

/-- Test fixture: a run missing the goal and finalizing to EXPIRED
after the deadline. -/
def wExpired : SaleState :=
  runOps 100 wSale10 [.contrib 2 2000 (wGroup 2 100 2000000), .fin 6000000]


theorem contribute_ok_spec {appAddr caller now : Nat} {g : Group} {s s2 : SaleState}
    (h : contribute appAddr caller now g s = .ok s2) :
    s.glob.status = 0 ∧ now < s.glob.deadline ∧ g.size = 2 ∧ g.appCallIndex = 1 ∧
    g.pay.typeEnum = 1 ∧ g.pay.receiver = appAddr ∧ 0 < g.pay.amount ∧
    g.pay.rekeyTo = 0 ∧ g.pay.closeRemainderTo = 0 ∧
    0 < g.pay.amount * s.glob.rate / RATE_SCALE ∧
    s2.glob = { s.glob with total := s.glob.total + g.pay.amount } ∧
    s2.boxes g.pay.sender =
      some ⟨boxPledged s g.pay.sender + g.pay.amount,
            boxOwed s g.pay.sender + g.pay.amount * s.glob.rate / RATE_SCALE⟩ ∧
    (∀ a, ¬ a = g.pay.sender → s2.boxes a = s.boxes a) := by
  by_cases h1 : s.glob.status = 0
  case neg => simp [contribute, h1] at h
  by_cases h2 : now < s.glob.deadline
  case neg => simp [contribute, h1, h2] at h
  by_cases h3 : g.size = 2
  case neg => simp [contribute, h1, h2, h3] at h
  by_cases h4 : g.appCallIndex = 1
  case neg => simp [contribute, h1, h2, h3, h4] at h
  by_cases h5 : g.pay.typeEnum = 1
  case neg => simp [contribute, h1, h2, h3, h4, h5] at h
  by_cases h6 : g.pay.receiver = appAddr
  case neg => simp [contribute, h1, h2, h3, h4, h5, h6] at h
  by_cases h7 : 0 < g.pay.amount
  case neg => simp [contribute, h1, h2, h3, h4, h5, h6, h7] at h
  by_cases h8 : g.pay.rekeyTo = 0
  case neg => simp [contribute, h1, h2, h3, h4, h5, h6, h7, h8] at h
  by_cases h9 : g.pay.closeRemainderTo = 0
  case neg => simp [contribute, h1, h2, h3, h4, h5, h6, h7, h8, h9] at h
  by_cases h10 : g.pay.amount * s.glob.rate / RATE_SCALE < U64
  case neg => simp [contribute, h1, h2, h3, h4, h5, h6, h7, h8, h9, h10] at h
  by_cases h11 : 0 < g.pay.amount * s.glob.rate / RATE_SCALE
  case neg => simp [contribute, h1, h2, h3, h4, h5, h6, h7, h8, h9, h10, h11] at h
  by_cases h12 : boxPledged s g.pay.sender + g.pay.amount < U64
  case neg => simp [contribute, h1, h2, h3, h4, h5, h6, h7, h8, h9, h10, h11, h12] at h
  by_cases h13 : boxOwed s g.pay.sender + g.pay.amount * s.glob.rate / RATE_SCALE < U64
  case neg => simp [contribute, h1, h2, h3, h4, h5, h6, h7, h8, h9, h10, h11, h12, h13] at h
  by_cases h14 : s.glob.total + g.pay.amount < U64
  case neg =>
    simp [contribute, h1, h2, h3, h4, h5, h6, h7, h8, h9, h10, h11, h12, h13, h14] at h
  simp only [contribute] at h
  rw [if_pos h1, if_pos h2, if_pos h3, if_pos h4, if_pos h5, if_pos h6, if_pos h7,
    if_pos h8, if_pos h9, if_pos h10, if_pos h11, if_pos h12, if_pos h13, if_pos h14] at h
  injection h with h
  subst h
  refine ⟨h1, h2, h3, h4, h5, h6, h7, h8, h9, h11, rfl, ?_, ?_⟩
  · simp [boxPut]
  · intro a ha
    simp [boxPut, ha]


theorem claim_ok_spec {c : Nat} {t : Bool} {s s2 : SaleState} {tr : Transfer} {amt : Nat}
    (h : claim c t s = .ok (s2, tr, amt)) :
    s.glob.status = 1 ∧ t = true ∧
    ∃ r, s.boxes c = some r ∧ 0 < r.owed ∧ amt = r.owed ∧
      tr = ⟨.axfer, s.glob.asaId, c, r.owed⟩ ∧
      s2.glob = s.glob ∧ s2.boxes c = some ⟨0, 0⟩ ∧
      ∀ a, ¬ a = c → s2.boxes a = s.boxes a := by
  by_cases h1 : s.glob.status = 1
  case neg => simp [claim, h1] at h
  cases hb : s.boxes c with
  | none => simp [claim, h1, hb] at h
  | some r =>
    by_cases h2 : 0 < r.owed
    case neg => simp [claim, h1, hb, h2] at h
    cases t with
    | false => simp [claim, h1, hb, h2] at h
    | true =>
      have hcl : claim c true s
          = .ok (boxPut s c ⟨0, 0⟩, ⟨.axfer, s.glob.asaId, c, r.owed⟩, r.owed) := by
        simp [claim, h1, hb, h2]
      rw [hcl] at h
      injection h with h
      injection h with hs h
      injection h with htr hamt
      refine ⟨h1, rfl, r, rfl, h2, hamt.symm, htr.symm, ?_, ?_, ?_⟩
      · rw [← hs]; simp [boxPut]
      · rw [← hs]; simp [boxPut]
      · intro a ha
        rw [← hs]; simp [boxPut, ha]

theorem refund_ok_spec {c : Nat} {t : Bool} {s s2 : SaleState} {tr : Transfer} {amt : Nat}
    (h : refund c t s = .ok (s2, tr, amt)) :
    s.glob.status = 2 ∧ t = true ∧
    ∃ r, s.boxes c = some r ∧ 0 < r.pledged ∧ amt = r.pledged ∧
      tr = ⟨.pay, 0, c, r.pledged⟩ ∧
      s2.glob = s.glob ∧ s2.boxes c = some ⟨0, 0⟩ ∧
      ∀ a, ¬ a = c → s2.boxes a = s.boxes a := by
  by_cases h1 : s.glob.status = 2
  case neg => simp [refund, h1] at h
  cases hb : s.boxes c with
  | none => simp [refund, h1, hb] at h
  | some r =>
    by_cases h2 : 0 < r.pledged
    case neg => simp [refund, h1, hb, h2] at h
    cases t with
    | false => simp [refund, h1, hb, h2] at h
    | true =>
      have hcl : refund c true s
          = .ok (boxPut s c ⟨0, 0⟩, ⟨.pay, 0, c, r.pledged⟩, r.pledged) := by
        simp [refund, h1, hb, h2]
      rw [hcl] at h
      injection h with h
      injection h with hs h
      injection h with htr hamt
      refine ⟨h1, rfl, r, rfl, h2, hamt.symm, htr.symm, ?_, ?_, ?_⟩
      · rw [← hs]; simp [boxPut]
      · rw [← hs]; simp [boxPut]
      · intro a ha
        rw [← hs]; simp [boxPut, ha]

theorem set_rate_ok_spec {c nr : Nat} {s s2 : SaleState}
    (h : set_rate c nr s = .ok s2) :
    c = s.glob.creator ∧ s.glob.status = 0 ∧
    s2.glob = { s.glob with rate := nr } ∧ s2.boxes = s.boxes := by
  by_cases h1 : c = s.glob.creator
  case neg => simp [set_rate, h1] at h
  by_cases h2 : s.glob.status = 0
  case neg => simp [set_rate, h1, h2] at h
  have he : set_rate c nr s = .ok { s with glob := { s.glob with rate := nr } } := by
    simp [set_rate, h1, h2]
  rw [he] at h
  injection h with h
  exact ⟨h1, h2, by rw [← h], by rw [← h]⟩

theorem finalize_ok_spec {now : Nat} {s s2 : SaleState}
    (h : finalize now s = .ok s2) :
    s.glob.status = 0 ∧ s2.boxes = s.boxes ∧
    ((s.glob.goal ≤ s.glob.total ∧ s2.glob = { s.glob with status := 1 }) ∨
     (s.glob.total < s.glob.goal ∧ s.glob.deadline ≤ now ∧
       s2.glob = { s.glob with status := 2 })) := by
  by_cases h1 : s.glob.status = 0
  case neg => simp [finalize, h1] at h
  by_cases h2 : s.glob.goal ≤ s.glob.total
  · have he : finalize now s = .ok { s with glob := { s.glob with status := 1 } } := by
      simp [finalize, h1, h2]
    rw [he] at h
    injection h with h
    exact ⟨h1, by rw [← h], Or.inl ⟨h2, by rw [← h]⟩⟩
  · by_cases h3 : s.glob.deadline ≤ now
    case neg => simp [finalize, h1, h2, h3] at h
    have he : finalize now s = .ok { s with glob := { s.glob with status := 2 } } := by
      simp [finalize, h1, h2, h3]
    rw [he] at h
    injection h with h
    exact ⟨h1, by rw [← h], Or.inr ⟨by omega, h3, by rw [← h]⟩⟩

theorem opt_in_asset_ok_spec {A c : Nat} {s s2 : SaleState} {tr : Transfer}
    (h : opt_in_asset A c s = .ok (s2, tr)) : s2 = s := by
  by_cases h1 : c = s.glob.creator
  case neg => simp [opt_in_asset, h1] at h
  have he : opt_in_asset A c s = .ok (s, ⟨.axfer, s.glob.asaId, A, 0⟩) := by
    simp [opt_in_asset, h1]
  rw [he] at h
  injection h with h
  injection h with h _
  exact h.symm

theorem withdraw_algo_ok_spec {c a : Nat} {s s2 : SaleState} {tr : Transfer}
    (h : withdraw_algo c a s = .ok (s2, tr)) : s2 = s := by
  by_cases h1 : c = s.glob.creator
  case neg => simp [withdraw_algo, h1] at h
  by_cases h2 : s.glob.status = 1
  case neg => simp [withdraw_algo, h1, h2] at h
  have he : withdraw_algo c a s = .ok (s, ⟨.pay, 0, c, a⟩) := by
    simp [withdraw_algo, h1, h2]
  rw [he] at h
  injection h with h
  injection h with h _
  exact h.symm

theorem reclaim_asset_ok_spec {c a d : Nat} {s s2 : SaleState} {tr : Transfer}
    (h : reclaim_asset c a d s = .ok (s2, tr)) : s2 = s := by
  by_cases h1 : c = s.glob.creator
  case neg => simp [reclaim_asset, h1] at h
  by_cases h2 : s.glob.status = 2 ∨ s.glob.status = 1
  case neg => simp [reclaim_asset, h1, h2] at h
  have he : reclaim_asset c a d s = .ok (s, ⟨.axfer, s.glob.asaId, d, a⟩) := by
    simp [reclaim_asset, h1, h2]
  rw [he] at h
  injection h with h
  injection h with h _
  exact h.symm


theorem stepOp_status_or {A : Nat} (s : SaleState) (op : Op) :
    (stepOp A s op).glob.status = s.glob.status ∨
    (s.glob.status = 0 ∧
      ((stepOp A s op).glob.status = 1 ∨ (stepOp A s op).glob.status = 2)) := by
  cases op with
  | contrib caller now g =>
    cases hc : contribute A caller now g s with
    | ok s2 =>
      obtain ⟨-, -, -, -, -, -, -, -, -, -, hg, -, -⟩ := contribute_ok_spec hc
      left
      simp [stepOp, hc, hg]
    | error e => left; simp [stepOp, hc]
  | fin now =>
    cases hf : finalize now s with
    | ok s2 =>
      obtain ⟨h0, -, hcase⟩ := finalize_ok_spec hf
      right
      refine ⟨h0, ?_⟩
      rcases hcase with ⟨-, hg⟩ | ⟨-, -, hg⟩
      · left; simp [stepOp, hf, hg]
      · right; simp [stepOp, hf, hg]
    | error e => left; simp [stepOp, hf]
  | doClaim c t =>
    cases hc : claim c t s with
    | ok x =>
      obtain ⟨s2, tr, amt⟩ := x
      obtain ⟨-, -, r, -, -, -, -, hg, -, -⟩ := claim_ok_spec hc
      left; simp [stepOp, hc, hg]
    | error e => left; simp [stepOp, hc]
  | doRefund c t =>
    cases hc : refund c t s with
    | ok x =>
      obtain ⟨s2, tr, amt⟩ := x
      obtain ⟨-, -, r, -, -, -, -, hg, -, -⟩ := refund_ok_spec hc
      left; simp [stepOp, hc, hg]
    | error e => left; simp [stepOp, hc]
  | setRate c nr =>
    cases hc : set_rate c nr s with
    | ok s2 =>
      obtain ⟨-, -, hg, -⟩ := set_rate_ok_spec hc
      left; simp [stepOp, hc, hg]
    | error e => left; simp [stepOp, hc]
  | optIn c =>
    cases hc : opt_in_asset A c s with
    | ok x =>
      obtain ⟨s2, tr⟩ := x
      left; simp [stepOp, hc, opt_in_asset_ok_spec hc]
    | error e => left; simp [stepOp, hc]
  | withdraw c a =>
    cases hc : withdraw_algo c a s with
    | ok x =>
      obtain ⟨s2, tr⟩ := x
      left; simp [stepOp, hc, withdraw_algo_ok_spec hc]
    | error e => left; simp [stepOp, hc]
  | reclaim c a d =>
    cases hc : reclaim_asset c a d s with
    | ok x =>
      obtain ⟨s2, tr⟩ := x
      left; simp [stepOp, hc, reclaim_asset_ok_spec hc]
    | error e => left; simp [stepOp, hc]

theorem stepOp_status_ne {A : Nat} {s : SaleState} (op : Op)
    (h : ¬ s.glob.status = 0) : (stepOp A s op).glob.status = s.glob.status := by
  rcases stepOp_status_or (A := A) s op with he | ⟨h0, -⟩
  · exact he
  · exact absurd h0 h

theorem runOps_status_ne {A : Nat} {s : SaleState} (ops : List Op)
    (h : ¬ s.glob.status = 0) : (runOps A s ops).glob.status = s.glob.status := by
  induction ops generalizing s with
  | nil => rfl
  | cons op rest ih =>
    have h1 := stepOp_status_ne (A := A) op h
    have h2 := ih (s := stepOp A s op) (by rw [h1]; exact h)
    rw [runOps, h2, h1]


theorem sumAmts_append (l1 l2 : List (Nat × Nat × Nat)) :
    sumAmts (l1 ++ l2) = sumAmts l1 + sumAmts l2 := by
  simp [sumAmts]

theorem sumTok_append (l1 l2 : List (Nat × Nat × Nat)) :
    sumTok (l1 ++ l2) = sumTok l1 + sumTok l2 := by
  simp [sumTok]

theorem forSender_append (c : Nat) (l1 l2 : List (Nat × Nat × Nat)) :
    forSender c (l1 ++ l2) = forSender c l1 ++ forSender c l2 := by
  simp [forSender]

theorem boxPledged_congr {s s2 : SaleState} (c : Nat) (h : s2.boxes c = s.boxes c) :
    boxPledged s2 c = boxPledged s c := by
  simp [boxPledged, h]

theorem boxOwed_congr {s s2 : SaleState} (c : Nat) (h : s2.boxes c = s.boxes c) :
    boxOwed s2 c = boxOwed s c := by
  simp [boxOwed, h]

theorem stepOp_open_log {A : Nat} {s : SaleState} (op : Op)
    (h0 : s.glob.status = 0) (h1 : (stepOp A s op).glob.status = 0) :
    (stepOp A s op).glob.total = s.glob.total + sumAmts (logHead A s op) ∧
    ∀ c, boxPledged (stepOp A s op) c
          = boxPledged s c + sumAmts (forSender c (logHead A s op)) ∧
        boxOwed (stepOp A s op) c
          = boxOwed s c + sumTok (forSender c (logHead A s op)) := by
  cases op with
  | contrib caller now g =>
    cases hc : contribute A caller now g s with
    | ok s2 =>
      obtain ⟨-, -, -, -, -, -, -, -, -, -, hg, hbox, hoth⟩ := contribute_ok_spec hc
      constructor
      · simp [stepOp, hc, logHead, sumAmts, hg]
      · intro c
        by_cases hcs : c = g.pay.sender
        · subst hcs
          simp [stepOp, hc, logHead, forSender, sumAmts, sumTok,
            boxPledged, boxOwed, hbox]
        · have hob := hoth c hcs
          have hcs2 : ¬ g.pay.sender = c := fun hx => hcs hx.symm
          simp [stepOp, hc, logHead, forSender, sumAmts, sumTok, hcs2,
            boxPledged, boxOwed, hob]
    | error e =>
      simp [stepOp, hc, logHead, forSender, sumAmts, sumTok]
  | fin now =>
    cases hf : finalize now s with
    | ok s2 =>
      obtain ⟨-, -, hcase⟩ := finalize_ok_spec hf
      exfalso
      rcases hcase with ⟨-, hg⟩ | ⟨-, -, hg⟩ <;> simp [stepOp, hf, hg] at h1
    | error e =>
      simp [stepOp, hf, logHead, forSender, sumAmts, sumTok]
  | doClaim c t =>
    cases hc : claim c t s with
    | ok x =>
      obtain ⟨s2, tr, amt⟩ := x
      obtain ⟨hst, -⟩ := claim_ok_spec hc
      rw [h0] at hst
      exact absurd hst (by omega)
    | error e =>
      simp [stepOp, hc, logHead, forSender, sumAmts, sumTok]
  | doRefund c t =>
    cases hc : refund c t s with
    | ok x =>
      obtain ⟨s2, tr, amt⟩ := x
      obtain ⟨hst, -⟩ := refund_ok_spec hc
      rw [h0] at hst
      exact absurd hst (by omega)
    | error e =>
      simp [stepOp, hc, logHead, forSender, sumAmts, sumTok]
  | setRate c nr =>
    cases hc : set_rate c nr s with
    | ok s2 =>
      obtain ⟨-, -, hg, hbx⟩ := set_rate_ok_spec hc
      constructor
      · simp [stepOp, hc, logHead, sumAmts, hg]
      · intro c2
        simp [stepOp, hc, logHead, forSender, sumAmts, sumTok,
          boxPledged, boxOwed, hbx]
    | error e =>
      simp [stepOp, hc, logHead, forSender, sumAmts, sumTok]
  | optIn c =>
    cases hc : opt_in_asset A c s with
    | ok x =>
      obtain ⟨s2, tr⟩ := x
      simp [stepOp, hc, opt_in_asset_ok_spec hc, logHead, forSender, sumAmts, sumTok]
    | error e =>
      simp [stepOp, hc, logHead, forSender, sumAmts, sumTok]
  | withdraw c a =>
    cases hc : withdraw_algo c a s with
    | ok x =>
      obtain ⟨s2, tr⟩ := x
      simp [stepOp, hc, withdraw_algo_ok_spec hc, logHead, forSender, sumAmts, sumTok]
    | error e =>
      simp [stepOp, hc, logHead, forSender, sumAmts, sumTok]
  | reclaim c a d =>
    cases hc : reclaim_asset c a d s with
    | ok x =>
      obtain ⟨s2, tr⟩ := x
      simp [stepOp, hc, reclaim_asset_ok_spec hc, logHead, forSender, sumAmts, sumTok]
    | error e =>
      simp [stepOp, hc, logHead, forSender, sumAmts, sumTok]

theorem runOps_open_log {A : Nat} (ops : List Op) (s : SaleState)
    (h0 : s.glob.status = 0) (h1 : (runOps A s ops).glob.status = 0) :
    (runOps A s ops).glob.total = s.glob.total + sumAmts (acceptedLog A s ops) ∧
    ∀ c, boxPledged (runOps A s ops) c
          = boxPledged s c + sumAmts (forSender c (acceptedLog A s ops)) ∧
        boxOwed (runOps A s ops) c
          = boxOwed s c + sumTok (forSender c (acceptedLog A s ops)) := by
  induction ops generalizing s with
  | nil =>
    simp [runOps, acceptedLog, sumAmts, sumTok, forSender]
  | cons op rest ih =>
    rw [runOps] at h1 ⊢
    have hstep : (stepOp A s op).glob.status = 0 := by
      by_contra hne
      rw [runOps_status_ne rest hne] at h1
      exact hne h1
    obtain ⟨ha, hb⟩ := stepOp_open_log op h0 hstep
    obtain ⟨ia, ib⟩ := ih (stepOp A s op) hstep h1
    constructor
    · rw [ia, ha, acceptedLog, sumAmts_append]
      omega
    · intro c
      obtain ⟨hb1, hb2⟩ := hb c
      obtain ⟨ib1, ib2⟩ := ib c
      constructor
      · rw [ib1, hb1, acceptedLog, forSender_append, sumAmts_append]
        omega
      · rw [ib2, hb2, acceptedLog, forSender_append, sumTok_append]
        omega


theorem stepOp_total_mono {A : Nat} (s : SaleState) (op : Op) :
    s.glob.total ≤ (stepOp A s op).glob.total := by
  cases op with
  | contrib caller now g =>
    cases hc : contribute A caller now g s with
    | ok s2 =>
      obtain ⟨-, -, -, -, -, -, -, -, -, -, hg, -, -⟩ := contribute_ok_spec hc
      simp [stepOp, hc, hg]
    | error e => simp [stepOp, hc]
  | fin now =>
    cases hf : finalize now s with
    | ok s2 =>
      obtain ⟨-, -, hcase⟩ := finalize_ok_spec hf
      rcases hcase with ⟨-, hg⟩ | ⟨-, -, hg⟩ <;> simp [stepOp, hf, hg]
    | error e => simp [stepOp, hf]
  | doClaim c t =>
    cases hc : claim c t s with
    | ok x =>
      obtain ⟨s2, tr, amt⟩ := x
      obtain ⟨-, -, r, -, -, -, -, hg, -, -⟩ := claim_ok_spec hc
      simp [stepOp, hc, hg]
    | error e => simp [stepOp, hc]
  | doRefund c t =>
    cases hc : refund c t s with
    | ok x =>
      obtain ⟨s2, tr, amt⟩ := x
      obtain ⟨-, -, r, -, -, -, -, hg, -, -⟩ := refund_ok_spec hc
      simp [stepOp, hc, hg]
    | error e => simp [stepOp, hc]
  | setRate c nr =>
    cases hc : set_rate c nr s with
    | ok s2 =>
      obtain ⟨-, -, hg, -⟩ := set_rate_ok_spec hc
      simp [stepOp, hc, hg]
    | error e => simp [stepOp, hc]
  | optIn c =>
    cases hc : opt_in_asset A c s with
    | ok x =>
      obtain ⟨s2, tr⟩ := x
      simp [stepOp, hc, opt_in_asset_ok_spec hc]
    | error e => simp [stepOp, hc]
  | withdraw c a =>
    cases hc : withdraw_algo c a s with
    | ok x =>
      obtain ⟨s2, tr⟩ := x
      simp [stepOp, hc, withdraw_algo_ok_spec hc]
    | error e => simp [stepOp, hc]
  | reclaim c a d =>
    cases hc : reclaim_asset c a d s with
    | ok x =>
      obtain ⟨s2, tr⟩ := x
      simp [stepOp, hc, reclaim_asset_ok_spec hc]
    | error e => simp [stepOp, hc]

theorem stepOp_total_frozen {A : Nat} (s : SaleState) (op : Op)
    (h : ¬ s.glob.status = 0) : (stepOp A s op).glob.total = s.glob.total := by
  cases op with
  | contrib caller now g =>
    cases hc : contribute A caller now g s with
    | ok s2 => exact absurd (contribute_ok_spec hc).1 h
    | error e => simp [stepOp, hc]
  | fin now =>
    cases hf : finalize now s with
    | ok s2 => exact absurd (finalize_ok_spec hf).1 h
    | error e => simp [stepOp, hf]
  | doClaim c t =>
    cases hc : claim c t s with
    | ok x =>
      obtain ⟨s2, tr, amt⟩ := x
      obtain ⟨-, -, r, -, -, -, -, hg, -, -⟩ := claim_ok_spec hc
      simp [stepOp, hc, hg]
    | error e => simp [stepOp, hc]
  | doRefund c t =>
    cases hc : refund c t s with
    | ok x =>
      obtain ⟨s2, tr, amt⟩ := x
      obtain ⟨-, -, r, -, -, -, -, hg, -, -⟩ := refund_ok_spec hc
      simp [stepOp, hc, hg]
    | error e => simp [stepOp, hc]
  | setRate c nr =>
    cases hc : set_rate c nr s with
    | ok s2 => exact absurd (set_rate_ok_spec hc).2.1 h
    | error e => simp [stepOp, hc]
  | optIn c =>
    cases hc : opt_in_asset A c s with
    | ok x =>
      obtain ⟨s2, tr⟩ := x
      simp [stepOp, hc, opt_in_asset_ok_spec hc]
    | error e => simp [stepOp, hc]
  | withdraw c a =>
    cases hc : withdraw_algo c a s with
    | ok x =>
      obtain ⟨s2, tr⟩ := x
      simp [stepOp, hc, withdraw_algo_ok_spec hc]
    | error e => simp [stepOp, hc]
  | reclaim c a d =>
    cases hc : reclaim_asset c a d s with
    | ok x =>
      obtain ⟨s2, tr⟩ := x
      simp [stepOp, hc, reclaim_asset_ok_spec hc]
    | error e => simp [stepOp, hc]

/-- C1: after any run of calls that starts open and is still open at the
end, a contributor with no prior box has `pledged_amount` equal to the
sum of the accepted payment amounts sent by them and `owed_tokens` equal
to the sum of `floor(amount * rate / RATE_SCALE)` over those accepted
contributions, each floored at the rate in effect when it was accepted. -/
theorem C1_contributor_sums (A c : Nat) (ops : List Op) (s : SaleState)
    (h0 : s.glob.status = 0) (h1 : (runOps A s ops).glob.status = 0)
    (hc : s.boxes c = none) :
    boxPledged (runOps A s ops) c = sumAmts (forSender c (acceptedLog A s ops)) ∧
    boxOwed (runOps A s ops) c = sumTok (forSender c (acceptedLog A s ops)) := by
  obtain ⟨-, hb⟩ := runOps_open_log ops s h0 h1
  obtain ⟨hb1, hb2⟩ := hb c
  rw [hb1, hb2]
  simp [boxPledged, boxOwed, hc]

/-- C2: every call either keeps `status` unchanged or moves it from
OPEN (0) to SUCCESS (1) or EXPIRED (2), so the two terminal states are
irreversible and never connected; and once `status` is not OPEN,
`finalize` always fails with `InvalidState` and leaves the whole state
unchanged. -/
theorem C2_status_latch (A now : Nat) (s : SaleState) (op : Op) :
    ((stepOp A s op).glob.status = s.glob.status ∨
      (s.glob.status = 0 ∧
        ((stepOp A s op).glob.status = 1 ∨ (stepOp A s op).glob.status = 2))) ∧
    (¬ s.glob.status = 0 →
      finalize now s = .error .InvalidState ∧ stepOp A s (.fin now) = s) := by
  refine ⟨stepOp_status_or s op, fun h => ?_⟩
  have hf : finalize now s = .error .InvalidState := by simp [finalize, h]
  exact ⟨hf, by simp [stepOp, hf]⟩

/-- C3: while OPEN, `finalize` yields SUCCESS exactly when
`total >= goal` (boundary included, even before the deadline); when the
goal is missed it yields EXPIRED once `now >= deadline`, and otherwise
fails with `DeadlineNotReached` leaving the state unchanged. -/
theorem C3_finalize_open (A now : Nat) (s : SaleState) (h0 : s.glob.status = 0) :
    (s.glob.goal ≤ s.glob.total →
      finalize now s = .ok { s with glob := { s.glob with status := 1 } }) ∧
    (s.glob.total < s.glob.goal → s.glob.deadline ≤ now →
      finalize now s = .ok { s with glob := { s.glob with status := 2 } }) ∧
    (s.glob.total < s.glob.goal → now < s.glob.deadline →
      finalize now s = .error .DeadlineNotReached ∧ stepOp A s (.fin now) = s) ∧
    (∀ s2, finalize now s = .ok s2 → s2.glob.status = 1 → s.glob.goal ≤ s.glob.total) := by
  refine ⟨fun h2 => by simp [finalize, h0, h2], fun h2 h3 => ?_, fun h2 h3 => ?_, ?_⟩
  · have h2x : ¬ s.glob.goal ≤ s.glob.total := by omega
    simp [finalize, h0, h2x, h3]
  · have h2x : ¬ s.glob.goal ≤ s.glob.total := by omega
    have h3x : ¬ s.glob.deadline ≤ now := by omega
    have hf : finalize now s = .error .DeadlineNotReached := by
      simp [finalize, h0, h2x, h3x]
    exact ⟨hf, by simp [stepOp, hf]⟩
  · intro s2 hok h1
    obtain ⟨-, -, hcase⟩ := finalize_ok_spec hok
    rcases hcase with ⟨hge, -⟩ | ⟨-, -, hg⟩
    · exact hge
    · rw [hg] at h1
      simp at h1

/-- C4: with status SUCCESS and a record with positive `owed_tokens`,
`claim` sends exactly `owed_tokens` of the token asset to the
contributor, zeroes both record fields, and returns the amount sent;
if the transfer is not accepted the whole call fails with
`TransferFailed` (so zeroing happens only after an accepted transfer);
`claim` succeeds only under those preconditions.  `refund` behaves
symmetrically for EXPIRED and `pledged_amount`. -/
theorem C4_claim_refund_settlement (c : Nat) (s : SaleState) (r : Record) :
    (s.glob.status = 1 → s.boxes c = some r → 0 < r.owed →
      claim c true s = .ok (boxPut s c ⟨0, 0⟩, ⟨.axfer, s.glob.asaId, c, r.owed⟩, r.owed) ∧
      claim c false s = .error .TransferFailed) ∧
    (∀ t s2 tr amt, claim c t s = .ok (s2, tr, amt) →
      s.glob.status = 1 ∧ ∃ r2, s.boxes c = some r2 ∧ 0 < r2.owed ∧ amt = r2.owed) ∧
    (s.glob.status = 2 → s.boxes c = some r → 0 < r.pledged →
      refund c true s = .ok (boxPut s c ⟨0, 0⟩, ⟨.pay, 0, c, r.pledged⟩, r.pledged) ∧
      refund c false s = .error .TransferFailed) ∧
    (∀ t s2 tr amt, refund c t s = .ok (s2, tr, amt) →
      s.glob.status = 2 ∧ ∃ r2, s.boxes c = some r2 ∧ 0 < r2.pledged ∧ amt = r2.pledged) := by
  refine ⟨fun h1 hb h2 => ⟨by simp [claim, h1, hb, h2], by simp [claim, h1, hb, h2]⟩,
    ?_, fun h1 hb h2 => ⟨by simp [refund, h1, hb, h2], by simp [refund, h1, hb, h2]⟩, ?_⟩
  · intro t s2 tr amt h
    obtain ⟨h1, -, r2, hb, h2, hamt, -⟩ := claim_ok_spec h
    exact ⟨h1, r2, hb, h2, hamt⟩
  · intro t s2 tr amt h
    obtain ⟨h1, -, r2, hb, h2, hamt, -⟩ := refund_ok_spec h
    exact ⟨h1, r2, hb, h2, hamt⟩

/-- C5: after a successful `claim` (resp. `refund`) the record is
present but zeroed, so a second `claim` (resp. `refund`) by the same
contributor fails with `AlreadySettled`; an absent record instead fails
with `RecordNotFound`, so settlement distinguishes the two states. -/
theorem C5_no_double_settlement (c : Nat) (t t2 : Bool) (s s2 : SaleState)
    (tr : Transfer) (amt : Nat) :
    (claim c t s = .ok (s2, tr, amt) →
      claim c t2 s2 = .error .AlreadySettled ∧ s2.boxes c = some ⟨0, 0⟩) ∧
    (refund c t s = .ok (s2, tr, amt) →
      refund c t2 s2 = .error .AlreadySettled ∧ s2.boxes c = some ⟨0, 0⟩) ∧
    (s.glob.status = 1 → s.boxes c = none → claim c t s = .error .RecordNotFound) ∧
    (s.glob.status = 2 → s.boxes c = none → refund c t s = .error .RecordNotFound) := by
  refine ⟨?_, ?_, fun h1 hb => by simp [claim, h1, hb], fun h1 hb => by simp [refund, h1, hb]⟩
  · intro h
    obtain ⟨h1, -, r, hb, h2, -, -, hg, hzero, -⟩ := claim_ok_spec h
    have hst : s2.glob.status = 1 := by rw [hg]; exact h1
    exact ⟨by simp [claim, hst, hzero], hzero⟩
  · intro h
    obtain ⟨h1, -, r, hb, h2, -, -, hg, hzero, -⟩ := refund_ok_spec h
    have hst : s2.glob.status = 2 := by rw [hg]; exact h1
    exact ⟨by simp [refund, hst, hzero], hzero⟩


/-- C6: while the sale stays OPEN the aggregate total equals the exact
sum of the accepted payment amounts; the total never decreases under
any call; and once `status` has left OPEN no call changes it. -/
theorem C6_total_sum_monotone_frozen (A : Nat) (ops : List Op) (op : Op) (s : SaleState) :
    (s.glob.status = 0 → (runOps A s ops).glob.status = 0 →
      (runOps A s ops).glob.total = s.glob.total + sumAmts (acceptedLog A s ops)) ∧
    s.glob.total ≤ (stepOp A s op).glob.total ∧
    (¬ s.glob.status = 0 → (stepOp A s op).glob.total = s.glob.total) := by
  exact ⟨fun h0 h1 => (runOps_open_log ops s h0 h1).1,
    stepOp_total_mono s op, stepOp_total_frozen s op⟩

/-- C7: a contribution that passes the phase, deadline and group-shape
guards but whose computed entitlement `floor(amount * rate / RATE_SCALE)`
is zero fails with `DustRejected` and causes no state change. -/
theorem C7_dust_rejected (A caller now : Nat) (g : Group) (s : SaleState)
    (h0 : s.glob.status = 0) (h2 : now < s.glob.deadline) (h3 : g.size = 2)
    (h4 : g.appCallIndex = 1) (h5 : g.pay.typeEnum = 1) (h6 : g.pay.receiver = A)
    (h7 : 0 < g.pay.amount) (h8 : g.pay.rekeyTo = 0) (h9 : g.pay.closeRemainderTo = 0)
    (hd : g.pay.amount * s.glob.rate / RATE_SCALE = 0) :
    contribute A caller now g s = .error .DustRejected ∧
    stepOp A s (.contrib caller now g) = s := by
  have h10 : g.pay.amount * s.glob.rate / RATE_SCALE < U64 := by
    rw [hd]; norm_num [U64]
  have hU : ¬ U64 = 0 := by norm_num [U64]
  have hc : contribute A caller now g s = .error .DustRejected := by
    simp [contribute, h0, h2, h3, h4, h5, h6, h7, h8, h9, h10, hd, hU]
  exact ⟨hc, by simp [stepOp, hc]⟩

/-- C8: an accepted `contribute` credits the box keyed by the sender of
the grouped payment transaction, not the app-call sender: when the two
differ, the caller's own box is untouched while the payment sender's
pledge and entitlement accumulate; `claim` and `refund` instead settle
the box keyed by their own call sender and pay that sender. -/
theorem C8_record_keyed_by_payment_sender (A caller now : Nat) (g : Group)
    (s s2 : SaleState) (hne : ¬ caller = g.pay.sender)
    (h : contribute A caller now g s = .ok s2) :
    (s2.boxes caller = s.boxes caller ∧
     s2.boxes g.pay.sender =
       some ⟨boxPledged s g.pay.sender + g.pay.amount,
             boxOwed s g.pay.sender + g.pay.amount * s.glob.rate / RATE_SCALE⟩) ∧
    (∀ (s4 s3 : SaleState) (t : Bool) (tr : Transfer) (amt : Nat),
      claim caller t s4 = .ok (s3, tr, amt) →
        tr.receiver = caller ∧ s3.boxes caller = some ⟨0, 0⟩ ∧
        ∀ a, ¬ a = caller → s3.boxes a = s4.boxes a) ∧
    (∀ (s4 s3 : SaleState) (t : Bool) (tr : Transfer) (amt : Nat),
      refund caller t s4 = .ok (s3, tr, amt) →
        tr.receiver = caller ∧ s3.boxes caller = some ⟨0, 0⟩ ∧
        ∀ a, ¬ a = caller → s3.boxes a = s4.boxes a) := by
  obtain ⟨-, -, -, -, -, -, -, -, -, -, -, hbox, hoth⟩ := contribute_ok_spec h
  refine ⟨⟨hoth caller hne, hbox⟩, ?_, ?_⟩
  · intro s4 s3 t tr amt hcl
    obtain ⟨-, -, r, -, -, -, htr, -, hzero, hother⟩ := claim_ok_spec hcl
    exact ⟨by rw [htr], hzero, hother⟩
  · intro s4 s3 t tr amt hcl
    obtain ⟨-, -, r, -, -, -, htr, -, hzero, hother⟩ := refund_ok_spec hcl
    exact ⟨by rw [htr], hzero, hother⟩

/-- C9: `set_rate` succeeds exactly when the caller is the creator and
the sale is OPEN; its only effect is to replace the stored rate — every
other global field and every contributor record is unchanged — and it
fails with `PermissionDenied` for non-creators and `InvalidState`
outside OPEN. -/
theorem C9_set_rate_frame (sender nr : Nat) (s : SaleState) :
    (sender = s.glob.creator → s.glob.status = 0 →
      set_rate sender nr s = .ok { s with glob := { s.glob with rate := nr } }) ∧
    (∀ s2, set_rate sender nr s = .ok s2 →
      sender = s.glob.creator ∧ s.glob.status = 0 ∧
      s2.glob.rate = nr ∧ s2.glob.creator = s.glob.creator ∧
      s2.glob.asaId = s.glob.asaId ∧ s2.glob.goal = s.glob.goal ∧
      s2.glob.total = s.glob.total ∧ s2.glob.startTs = s.glob.startTs ∧
      s2.glob.deadline = s.glob.deadline ∧ s2.glob.status = s.glob.status ∧
      ∀ a, s2.boxes a = s.boxes a) ∧
    (¬ sender = s.glob.creator → set_rate sender nr s = .error .PermissionDenied) ∧
    (sender = s.glob.creator → ¬ s.glob.status = 0 →
      set_rate sender nr s = .error .InvalidState) := by
  refine ⟨fun h1 h2 => by simp [set_rate, h1, h2], ?_,
    fun h1 => by simp [set_rate, h1], fun h1 h2 => by simp [set_rate, h1, h2]⟩
  intro s2 h
  obtain ⟨h1, h2, hg, hbx⟩ := set_rate_ok_spec h
  refine ⟨h1, h2, ?_, ?_, ?_, ?_, ?_, ?_, ?_, ?_, fun a => by rw [hbx]⟩ <;> rw [hg]

/-- C10: `contribute` succeeds only for a group of exactly two
transactions with the app call at index 1 and, at index 0, a payment of
positive amount to the application address with zero `rekey_to` and
`close_remainder_to`; any group whose payment sets `rekey_to` or
`close_remainder_to` is rejected with no state change. -/
theorem C10_group_shape_guards (A caller now : Nat) (g : Group) (s : SaleState) :
    (∀ s2, contribute A caller now g s = .ok s2 →
      g.size = 2 ∧ g.appCallIndex = 1 ∧ g.pay.typeEnum = 1 ∧
      g.pay.receiver = A ∧ 0 < g.pay.amount ∧
      g.pay.rekeyTo = 0 ∧ g.pay.closeRemainderTo = 0) ∧
    (¬ g.pay.rekeyTo = 0 ∨ ¬ g.pay.closeRemainderTo = 0 →
      (∃ e, contribute A caller now g s = .error e) ∧
      stepOp A s (.contrib caller now g) = s) := by
  constructor
  · intro s2 h
    obtain ⟨-, -, h3, h4, h5, h6, h7, h8, h9, -⟩ := contribute_ok_spec h
    exact ⟨h3, h4, h5, h6, h7, h8, h9⟩
  · intro hbad
    cases hres : contribute A caller now g s with
    | ok s2 =>
      obtain ⟨-, -, -, -, -, -, -, h8, h9, -⟩ := contribute_ok_spec hres
      rcases hbad with hb | hb
      · exact absurd h8 hb
      · exact absurd h9 hb
    | error e =>
      exact ⟨⟨e, rfl⟩, by simp [stepOp, hres]⟩


/-- Witness for C1: two accepted contributions (3000000 then 2000000) by
address 2 with a rate change from 100 to 200 in between give
pledged 5000000 and owed 300 + 400 = 700. -/
theorem C1_contributor_sums_witness :
    wState.glob.status = 0 ∧ (runOps 100 wState wOpsC1).glob.status = 0 ∧
    wState.boxes 2 = none ∧
    (boxPledged (runOps 100 wState wOpsC1) 2
        = sumAmts (forSender 2 (acceptedLog 100 wState wOpsC1)) ∧
      boxOwed (runOps 100 wState wOpsC1) 2
        = sumTok (forSender 2 (acceptedLog 100 wState wOpsC1))) ∧
    boxPledged (runOps 100 wState wOpsC1) 2 = 5000000 ∧
    boxOwed (runOps 100 wState wOpsC1) 2 = 700 :=
  ⟨rfl, by decide, rfl,
    C1_contributor_sums 100 2 wOpsC1 wState rfl (by decide) rfl,
    by decide, by decide⟩

/-- Witness for C2: in a state that has reached SUCCESS, `finalize`
fails with `InvalidState` and changes nothing. -/
theorem C2_status_latch_witness :
    ¬ wReached.glob.status = 0 ∧
    (finalize 3000 wReached = .error .InvalidState ∧
      stepOp 100 wReached (.fin 3000) = wReached) :=
  ⟨by decide, (C2_status_latch 100 3000 wReached (.fin 3000)).2 (by decide)⟩

/-- Witness for C3: with goal 5000000 and contributions 3000000 and
2000000 the boundary `total = goal` finalizes to SUCCESS before the
deadline; with goal 10000000 and total 5000000 before the deadline it
fails with `DeadlineNotReached`. -/
theorem C3_finalize_open_witness :
    (runOps 100 wState
        [.contrib 2 2000 (wGroup 2 100 3000000),
         .contrib 2 2100 (wGroup 2 100 2000000)]).glob.status = 0 ∧
    (runOps 100 wState
        [.contrib 2 2000 (wGroup 2 100 3000000),
         .contrib 2 2100 (wGroup 2 100 2000000)]).glob.goal ≤
      (runOps 100 wState
        [.contrib 2 2000 (wGroup 2 100 3000000),
         .contrib 2 2100 (wGroup 2 100 2000000)]).glob.total ∧
    2500 < (runOps 100 wState
        [.contrib 2 2000 (wGroup 2 100 3000000),
         .contrib 2 2100 (wGroup 2 100 2000000)]).glob.deadline ∧
    finalize 2500 (runOps 100 wState
        [.contrib 2 2000 (wGroup 2 100 3000000),
         .contrib 2 2100 (wGroup 2 100 2000000)])
      = .ok { runOps 100 wState
                [.contrib 2 2000 (wGroup 2 100 3000000),
                 .contrib 2 2100 (wGroup 2 100 2000000)] with
              glob := { (runOps 100 wState
                [.contrib 2 2000 (wGroup 2 100 3000000),
                 .contrib 2 2100 (wGroup 2 100 2000000)]).glob with status := 1 } } ∧
    (runOps 100 wSale10 [.contrib 2 2000 (wGroup 2 100 5000000)]).glob.total <
      (runOps 100 wSale10 [.contrib 2 2000 (wGroup 2 100 5000000)]).glob.goal ∧
    finalize 2500 (runOps 100 wSale10 [.contrib 2 2000 (wGroup 2 100 5000000)])
      = .error .DeadlineNotReached :=
  ⟨by decide, by decide, by decide,
    (C3_finalize_open 100 2500 _ (by decide)).1 (by decide),
    by decide,
    ((C3_finalize_open 100 2500
        (runOps 100 wSale10 [.contrib 2 2000 (wGroup 2 100 5000000)])
        (by decide)).2.2.1 (by decide) (by decide)).1⟩

/-- Witness for C4: in the SUCCESS state with record (5000000, 500) for
address 2, `claim` sends 500 tokens of asset 7 to address 2, zeroes the
record, returns 500; with the transfer refused it fails with
`TransferFailed`. -/
theorem C4_claim_refund_settlement_witness :
    wReached.glob.status = 1 ∧ wReached.boxes 2 = some ⟨5000000, 500⟩ ∧
    (0 : Nat) < 500 ∧
    (claim 2 true wReached
        = .ok (boxPut wReached 2 ⟨0, 0⟩, ⟨.axfer, wReached.glob.asaId, 2, 500⟩, 500) ∧
      claim 2 false wReached = .error .TransferFailed) ∧
    wExpired.glob.status = 2 ∧ wExpired.boxes 2 = some ⟨2000000, 200⟩ ∧
    (refund 2 true wExpired
        = .ok (boxPut wExpired 2 ⟨0, 0⟩, ⟨.pay, 0, 2, 2000000⟩, 2000000) ∧
      refund 2 false wExpired = .error .TransferFailed) :=
  ⟨by decide, by decide, by decide,
    (C4_claim_refund_settlement 2 wReached ⟨5000000, 500⟩).1
      (by decide) (by decide) (by decide),
    by decide, by decide,
    (C4_claim_refund_settlement 2 wExpired ⟨2000000, 200⟩).2.2.1
      (by decide) (by decide) (by decide)⟩

/-- Witness for C5: after address 2 claims in the SUCCESS state, a
second claim fails with `AlreadySettled`; address 5 (which never
contributed) fails with `RecordNotFound`; symmetrically for refunds in
the EXPIRED state. -/
theorem C5_no_double_settlement_witness :
    (claim 2 true (boxPut wReached 2 ⟨0, 0⟩) = .error .AlreadySettled ∧
      (boxPut wReached 2 ⟨0, 0⟩).boxes 2 = some ⟨0, 0⟩) ∧
    (refund 2 true (boxPut wExpired 2 ⟨0, 0⟩) = .error .AlreadySettled ∧
      (boxPut wExpired 2 ⟨0, 0⟩).boxes 2 = some ⟨0, 0⟩) ∧
    claim 5 true wReached = .error .RecordNotFound ∧
    refund 5 true wExpired = .error .RecordNotFound :=
  ⟨(C5_no_double_settlement 2 true true wReached (boxPut wReached 2 ⟨0, 0⟩)
      ⟨.axfer, 7, 2, 500⟩ 500).1 rfl,
    (C5_no_double_settlement 2 true true wExpired (boxPut wExpired 2 ⟨0, 0⟩)
      ⟨.pay, 0, 2, 2000000⟩ 2000000).2.1 rfl,
    (C5_no_double_settlement 5 true true wReached wReached
      ⟨.pay, 0, 0, 0⟩ 0).2.2.1 (by decide) (by decide),
    (C5_no_double_settlement 5 true true wExpired wExpired
      ⟨.pay, 0, 0, 0⟩ 0).2.2.2 (by decide) (by decide)⟩

/-- Witness for C6: on the C1 run the aggregate total is exactly
5000000; a further contribution can only increase the total; in the
SUCCESS state an attempted contribution leaves the total unchanged. -/
theorem C6_total_sum_monotone_frozen_witness :
    wState.glob.status = 0 ∧ (runOps 100 wState wOpsC1).glob.status = 0 ∧
    (runOps 100 wState wOpsC1).glob.total
      = wState.glob.total + sumAmts (acceptedLog 100 wState wOpsC1) ∧
    (runOps 100 wState wOpsC1).glob.total = 5000000 ∧
    ¬ wReached.glob.status = 0 ∧
    (stepOp 100 wReached (.contrib 2 3000 (wGroup 2 100 1000000))).glob.total
      = wReached.glob.total :=
  ⟨rfl, by decide,
    (C6_total_sum_monotone_frozen 100 wOpsC1
      (.contrib 2 3000 (wGroup 2 100 1000000)) wState).1 rfl (by decide),
    by decide, by decide,
    (C6_total_sum_monotone_frozen 100 wOpsC1
      (.contrib 2 3000 (wGroup 2 100 1000000)) wReached).2.2 (by decide)⟩

/-- Witness for C7: a 1-microalgo contribution at rate 100 computes
`floor(1 * 100 / 1000000) = 0` and is rejected as dust with no state
change. -/
theorem C7_dust_rejected_witness :
    wState.glob.status = 0 ∧ 2000 < wState.glob.deadline ∧
    (wGroup 2 100 1).pay.amount * wState.glob.rate / RATE_SCALE = 0 ∧
    (contribute 100 9 2000 (wGroup 2 100 1) wState = .error .DustRejected ∧
      stepOp 100 wState (.contrib 9 2000 (wGroup 2 100 1)) = wState) :=
  ⟨rfl, by decide, by decide,
    C7_dust_rejected 100 9 2000 (wGroup 2 100 1) wState rfl (by decide) rfl rfl rfl
      rfl (by decide) rfl rfl (by decide)⟩

/-- Witness for C8: address 9 calls `contribute` while address 2 sends
the grouped payment; the pledge is credited to address 2 and address
9's box stays absent; a later `claim` by a caller settles that caller's
own box. -/
theorem C8_record_keyed_by_payment_sender_witness :
    ¬ (9 : Nat) = (wGroup 2 100 3000000).pay.sender ∧
    (contribute 100 9 2000 (wGroup 2 100 3000000) wState
      = .ok (stepOp 100 wState (.contrib 9 2000 (wGroup 2 100 3000000)))) ∧
    ((stepOp 100 wState (.contrib 9 2000 (wGroup 2 100 3000000))).boxes 9
        = wState.boxes 9 ∧
      (stepOp 100 wState (.contrib 9 2000 (wGroup 2 100 3000000))).boxes
          (wGroup 2 100 3000000).pay.sender
        = some ⟨boxPledged wState (wGroup 2 100 3000000).pay.sender + 3000000,
                boxOwed wState (wGroup 2 100 3000000).pay.sender
                  + 3000000 * wState.glob.rate / RATE_SCALE⟩) :=
  ⟨by decide, by rfl,
    ((C8_record_keyed_by_payment_sender 100 9 2000 (wGroup 2 100 3000000) wState
      (stepOp 100 wState (.contrib 9 2000 (wGroup 2 100 3000000)))
      (by decide) (by rfl))).1⟩

/-- Witness for C9: the creator (address 1) changes the rate to 250
while OPEN and only the rate changes; address 9 is refused with
`PermissionDenied`; after SUCCESS even the creator gets
`InvalidState`. -/
theorem C9_set_rate_frame_witness :
    ((1 : Nat) = wState.glob.creator ∧ wState.glob.status = 0 ∧
      set_rate 1 250 wState
        = .ok { wState with glob := { wState.glob with rate := 250 } }) ∧
    (¬ (9 : Nat) = wState.glob.creator ∧
      set_rate 9 250 wState = .error .PermissionDenied) ∧
    ((1 : Nat) = wReached.glob.creator ∧ ¬ wReached.glob.status = 0 ∧
      set_rate 1 250 wReached = .error .InvalidState) :=
  ⟨⟨rfl, rfl, (C9_set_rate_frame 1 250 wState).1 rfl rfl⟩,
    ⟨by decide, (C9_set_rate_frame 9 250 wState).2.2.1 (by decide)⟩,
    ⟨by decide, by decide,
      (C9_set_rate_frame 1 250 wReached).2.2.2 (by decide) (by decide)⟩⟩

/-- Witness for C10: the accepted contribution at a well-formed group
satisfies all seven group guards; the same group with `rekey_to` set to
address 5 is rejected with no state change. -/
theorem C10_group_shape_guards_witness :
    (contribute 100 9 2000 (wGroup 2 100 3000000) wState
        = .ok (stepOp 100 wState (.contrib 9 2000 (wGroup 2 100 3000000))) ∧
      (wGroup 2 100 3000000).size = 2 ∧
      (wGroup 2 100 3000000).pay.rekeyTo = 0) ∧
    (¬ wBadGroup.pay.rekeyTo = 0 ∧
      ((∃ e, contribute 100 9 2000 wBadGroup wState = .error e) ∧
        stepOp 100 wState (.contrib 9 2000 wBadGroup) = wState)) :=
  ⟨⟨by rfl, by decide, by decide⟩,
    ⟨by decide,
      (C10_group_shape_guards 100 9 2000 wBadGroup wState).2 (Or.inl (by decide))⟩⟩

end EscrowSale
